import Mathlib

/-!
Verification development for the Serverless Image Management System.

The Python sources under src/lambda are shallowly embedded here:
Python strings are modelled as lists of characters (`PyStr`), byte
strings as lists of byte values (`Bytes`), dictionaries as structures
with `Option` fields (a missing key is `none`), raised exceptions as
`Except.error`, and the DynamoDB status-store writes of a run as an
explicit trace of (record key, status) pairs.
-/

/-- A Python string, modelled as its list of characters. -/
abbrev PyStr := List Char

/-- Coerce a Lean string literal to the `PyStr` model. -/
def str (s : String) : PyStr := s.data

/-- A Python byte string, modelled as its list of byte values. -/
abbrev Bytes := List Nat

/-- Byte values of an ASCII string literal, as in a Python bytes literal. -/
def bstr (s : String) : Bytes := s.data.map Char.toNat

/-- Python `s.split(sep)` for a one-character separator: splits on every
occurrence and keeps empty segments, so the result is always non-empty. -/
def splitOnChar (c : Char) : List Char → List (List Char)
  | [] => [[]]
  | x :: xs =>
    if x = c then [] :: splitOnChar c xs
    else
      match splitOnChar c xs with
      | [] => [[x]]
      | y :: ys => (x :: y) :: ys

theorem splitOnChar_ne_nil (c : Char) (l : List Char) : splitOnChar c l ≠ [] := by
  induction l with
  | nil => simp [splitOnChar]
  | cons x xs ih =>
    by_cases h : x = c
    · simp [splitOnChar, h]
    · simp only [splitOnChar, if_neg h]
      cases hxs : splitOnChar c xs with
      | nil => simp
      | cons y ys => simp

theorem splitOnChar_append_cons (c : Char) (l rest : List Char) (hl : c ∉ l) :
    splitOnChar c (l ++ c :: rest) = l :: splitOnChar c rest := by
  induction l with
  | nil => simp [splitOnChar]
  | cons x xs ih =>
    have hx : x ≠ c := fun h => hl (by simp [h])
    have hxs : c ∉ xs := fun h => hl (by simp [h])
    simp only [List.cons_append, splitOnChar, if_neg hx]
    rw [show xs.append (c :: rest) = xs ++ c :: rest from rfl, ih hxs]

/-- Python slice `h[a:b]` for non-negative indices. -/
def bslice (h : Bytes) (a b : Nat) : Bytes := (h.drop a).take (b - a)

/-- Python slice `d[-n:]`, the last `n` elements (the whole list when shorter). -/
def lastBytes (n : Nat) (d : Bytes) : Bytes := d.drop (d.length - n)

/-- The fixed 8-byte PNG signature, Python bytes `b"\x89PNG\r\n\x1a\n"`. -/
def pngSignatureBytes : Bytes := [137, 80, 78, 71, 13, 10, 26, 10]

/-- CPython `imghdr.what(None, h=image_data)`: runs the registered format
tests in their registration order on the byte content and returns the name
of the first format that matches (`jpeg`, `png`, `gif`, `tiff`, `rgb`,
`pbm`, `pgm`, `ppm`, `rast`, `xbm`, `bmp`, `webp`, `exr`), else `none`.
This is the format sniffing used by src/lambda/validation/main.py line 166. -/
def imghdr_what (h : Bytes) : Option String :=
  if bslice h 6 10 = bstr "JFIF" ∨ bslice h 6 10 = bstr "Exif" then some "jpeg"
  else if pngSignatureBytes.isPrefixOf h then some "png"
  else if h.take 6 = bstr "GIF87a" ∨ h.take 6 = bstr "GIF89a" then some "gif"
  else if h.take 2 = bstr "MM" ∨ h.take 2 = bstr "II" then some "tiff"
  else if [1, 218].isPrefixOf h then some "rgb"
  else if 3 ≤ h.length ∧ h.getD 0 0 = 80 ∧ (h.getD 1 0 = 49 ∨ h.getD 1 0 = 52)
          ∧ h.getD 2 0 ∈ [32, 9, 10, 13] then some "pbm"
  else if 3 ≤ h.length ∧ h.getD 0 0 = 80 ∧ (h.getD 1 0 = 50 ∨ h.getD 1 0 = 53)
          ∧ h.getD 2 0 ∈ [32, 9, 10, 13] then some "pgm"
  else if 3 ≤ h.length ∧ h.getD 0 0 = 80 ∧ (h.getD 1 0 = 51 ∨ h.getD 1 0 = 54)
          ∧ h.getD 2 0 ∈ [32, 9, 10, 13] then some "ppm"
  else if [89, 166, 106, 149].isPrefixOf h then some "rast"
  else if (bstr "#define ").isPrefixOf h then some "xbm"
  else if (bstr "BM").isPrefixOf h then some "bmp"
  else if (bstr "RIFF").isPrefixOf h ∧ bslice h 8 12 = bstr "WEBP" then some "webp"
  else if [118, 47, 49, 1].isPrefixOf h then some "exr"
  else none

/-- `MAX_FILE_SIZE = 10 * 1024 * 1024` from src/lambda/validation/main.py. -/
def MAX_FILE_SIZE : Nat := 10 * 1024 * 1024

/-- `ALLOWED_FORMATS` from src/lambda/validation/main.py. -/
def ALLOWED_FORMATS : List String := ["jpeg", "jpg", "png", "gif"]

/-- `validate_image_headers(image_data, format_type)` from
src/lambda/validation/main.py lines 220-238.  Any input that is empty or
shorter than 8 bytes is rejected before the per-format checks.  JPEG checks
the 2-byte start-of-image marker and the trailing 2-byte end-of-image
marker, PNG checks only the 8-byte signature, GIF checks the first six
bytes against the two version signatures, and every other format passes. -/
def validate_image_headers (image_data : Bytes) (format_type : String) : Bool :=
  if image_data.length < 8 then false
  else if format_type = "jpeg" ∨ format_type = "jpg" then
    decide (image_data.take 2 = [255, 216] ∧ lastBytes 2 image_data = [255, 217])
  else if format_type = "png" then
    decide (image_data.take 8 = pngSignatureBytes)
  else if format_type = "gif" then
    decide (image_data.take 6 = bstr "GIF87a" ∨ image_data.take 6 = bstr "GIF89a")
  else true

/-- Outcome of `validate_image`: the dictionary `{is_valid, image_info}` on
success, `{is_valid: False, error}` on any check failure. -/
inductive ValidationOutcome where
  | valid (format : String) (size_bytes : Nat)
  | invalid (error : String)
deriving DecidableEq

/-- `validate_image(image_data, image_id)` from src/lambda/validation/main.py
lines 144-218: size ceiling, then `imghdr` sniffing restricted to
`ALLOWED_FORMATS` (imghdr already returns lowercase names, so the source
call to `.lower()` is the identity here), then the header check. -/
def validate_image (image_data : Bytes) : ValidationOutcome :=
  let file_size := image_data.length
  if MAX_FILE_SIZE < file_size then .invalid "size exceeds maximum"
  else
    match imghdr_what image_data with
    | none => .invalid "invalid file format"
    | some fmt =>
      if fmt ∈ ALLOWED_FORMATS then
        if validate_image_headers image_data fmt then .valid fmt file_size
        else .invalid "invalid image file header"
      else .invalid "invalid file format"

/-- Whether `validate_image` accepts the byte string. -/
def image_accepted (image_data : Bytes) : Bool :=
  match validate_image image_data with
  | .valid _ _ => true
  | .invalid _ => false

/-- The acceptance condition exactly as claim C4 words it: length at most
10 MiB, sniffed format among the allowed ones, and the per-format header
condition (JPEG head and tail markers, PNG 8-byte signature prefix only,
GIF one of the two 6-byte signatures, anything else unconditionally). -/
def spec_accepts (d : Bytes) : Prop :=
  d.length ≤ MAX_FILE_SIZE ∧
  ∃ fmt, imghdr_what d = some fmt ∧ fmt ∈ ALLOWED_FORMATS ∧
    (fmt = "jpeg" ∨ fmt = "jpg" → d.take 2 = [255, 216] ∧ lastBytes 2 d = [255, 217]) ∧
    (fmt = "png" → d.take 8 = pngSignatureBytes) ∧
    (fmt = "gif" → d.take 6 = bstr "GIF87a" ∨ d.take 6 = bstr "GIF89a")

theorem validate_image_headers_iff (d : Bytes) (fmt : String) :
    validate_image_headers d fmt = true ↔
      8 ≤ d.length ∧
      (fmt = "jpeg" ∨ fmt = "jpg" → d.take 2 = [255, 216] ∧ lastBytes 2 d = [255, 217]) ∧
      (fmt = "png" → d.take 8 = pngSignatureBytes) ∧
      (fmt = "gif" → d.take 6 = bstr "GIF87a" ∨ d.take 6 = bstr "GIF89a") := by
  unfold validate_image_headers
  by_cases hlen : d.length < 8
  · simp only [if_pos hlen, Bool.false_eq_true, false_iff]
    rintro ⟨h8, -⟩
    omega
  · have hlen8 : 8 ≤ d.length := by omega
    simp only [if_neg hlen]
    by_cases h1 : fmt = "jpeg" ∨ fmt = "jpg"
    · have h2 : fmt ≠ "png" := by rcases h1 with h | h <;> subst h <;> decide
      have h3 : fmt ≠ "gif" := by rcases h1 with h | h <;> subst h <;> decide
      simp only [if_pos h1, decide_eq_true_eq]
      constructor
      · intro hA
        exact ⟨hlen8, fun _ => hA, fun hp => absurd hp h2, fun hg => absurd hg h3⟩
      · rintro ⟨-, hA, -, -⟩
        exact hA h1
    · simp only [if_neg h1]
      by_cases h2 : fmt = "png"
      · have h3 : fmt ≠ "gif" := by subst h2; decide
        simp only [if_pos h2, decide_eq_true_eq]
        constructor
        · intro hB
          exact ⟨hlen8, fun h => absurd h h1, fun _ => hB, fun hg => absurd hg h3⟩
        · rintro ⟨-, -, hB, -⟩
          exact hB h2
      · simp only [if_neg h2]
        by_cases h3 : fmt = "gif"
        · simp only [if_pos h3, decide_eq_true_eq]
          constructor
          · intro hC
            exact ⟨hlen8, fun h => absurd h h1, fun h => absurd h h2, fun _ => hC⟩
          · rintro ⟨-, -, -, hC⟩
            exact hC h3
        · simp only [if_neg h3]
          constructor
          · intro _
            exact ⟨hlen8, fun h => absurd h h1, fun h => absurd h h2, fun h => absurd h h3⟩
          · intro _
            trivial

/-- Claim C4 (amended): `validate_image` accepts a byte string exactly when
it is at least 8 bytes long, at most 10 MiB, its sniffed format is allowed,
and the per-format header condition of the claim holds.  The 8-byte floor
is the correction: the header validator rejects any shorter input before
the per-format checks, which the claim as stated does not require. -/
theorem validation_accepts_iff (d : Bytes) :
    image_accepted d = true ↔ 8 ≤ d.length ∧ spec_accepts d := by
  unfold image_accepted validate_image spec_accepts
  by_cases hsz : MAX_FILE_SIZE < d.length
  · simp only [if_pos hsz]
    constructor
    · intro h
      exact Bool.noConfusion h
    · rintro ⟨-, hle2, -⟩
      omega
  · simp only [if_neg hsz]
    have hle : d.length ≤ MAX_FILE_SIZE := by omega
    cases hfmt : imghdr_what d with
    | none =>
      constructor
      · intro h
        exact Bool.noConfusion h
      · rintro ⟨-, -, fmt, hf, -⟩
        exact Option.noConfusion hf
    | some fmt =>
      by_cases hmem : fmt ∈ ALLOWED_FORMATS
      · simp only [if_pos hmem]
        cases hhdr : validate_image_headers d fmt with
        | true =>
          obtain ⟨h8, hA, hB, hC⟩ := (validate_image_headers_iff d fmt).mp hhdr
          rw [if_pos rfl]
          constructor
          · intro _
            exact ⟨h8, hle, fmt, rfl, hmem, hA, hB, hC⟩
          · intro _
            rfl
        | false =>
          rw [if_neg Bool.false_ne_true]
          constructor
          · intro h
            exact Bool.noConfusion h
          · rintro ⟨h8, -, fmt2, hf2, hmem2, hA, hB, hC⟩
            obtain rfl : fmt = fmt2 := Option.some_inj.mp hf2
            have hok : validate_image_headers d fmt = true :=
              (validate_image_headers_iff d fmt).mpr ⟨h8, hA, hB, hC⟩
            rw [hhdr] at hok
            exact Bool.noConfusion hok
      · simp only [if_neg hmem]
        constructor
        · intro h
          exact Bool.noConfusion h
        · rintro ⟨-, -, fmt2, hf2, hmem2, -⟩
          obtain rfl : fmt = fmt2 := Option.some_inj.mp hf2
          exact absurd hmem2 hmem

/-- The six bytes of the bare string `GIF87a`. -/
def gifSignatureOnly : Bytes := bstr "GIF87a"

/-- Claim C4 counterexample: the 6-byte input consisting of exactly the
GIF87a signature satisfies every condition the claim states for acceptance
(size within the ceiling, sniffed as gif, first six bytes a GIF signature),
yet `validate_image` rejects it, because the header validator first rejects
any input shorter than 8 bytes. -/
theorem validation_accepts_counterexample :
    spec_accepts gifSignatureOnly ∧ image_accepted gifSignatureOnly = false := by
  constructor
  · exact ⟨by decide, "gif", by decide, by decide, by decide, by decide, by decide⟩
  · decide

/-- The run-context fields that the Validation stage handler extracts from
its event (src/lambda/validation/main.py lines 43-46); a missing key is
`none` and raises `KeyError` when accessed. -/
structure ValidationEvent where
  image_id : Option PyStr
  bucket_name : Option PyStr
  user_id : Option PyStr
  user_email : Option PyStr

/-- Successful return value of the Validation stage handler. -/
structure ValidationSuccess where
  statusCode : Nat
  image_id : PyStr
  run_status : PyStr
deriving DecidableEq

/-- The Validation stage handler `main` from src/lambda/validation/main.py
lines 25-107, as a pure function of the event and of the downloaded object
bytes (`none` models a failed download).  The second component is the trace
of best-effort DynamoDB status writes `update_validation_status` performs,
in order, as (record key, status) pairs; a raised exception is
`Except.error`.  Note that the policy-rejection branch first records
`validation_failed` and then raises, and that raise is caught by the same
handler, whose `except` block records `validation_error` before re-raising:
the failure status writes happen in that order for a rejection. -/
def validation_main (ev : ValidationEvent) (download : Option Bytes) :
    Except PyStr ValidationSuccess × List (PyStr × PyStr) :=
  match ev.image_id with
  | none => (.error (str "KeyError"), [])
  | some image_id =>
    match ev.bucket_name, ev.user_id, ev.user_email with
    | some _, some _, some _ =>
      match download with
      | none =>
        (.error (str "Failed to download image"), [(image_id, str "validation_error")])
      | some image_data =>
        match validate_image image_data with
        | .valid _ _ =>
          (.ok ⟨200, image_id, str "validated"⟩, [(image_id, str "validated")])
        | .invalid _ =>
          (.error (str "Image validation failed"),
           [(image_id, str "validation_failed"), (image_id, str "validation_error")])
    | _, _, _ => (.error (str "KeyError"), [(image_id, str "validation_error")])

/-- Claim C2 (amended): with the event fields present, a successful run
records `validated` and returns; a failing run raises.  A download failure
records only `validation_error`; a policy rejection records
`validation_failed` and then — because the stage raises the rejection as an
exception that its own handler catches — records `validation_error` as the
final, terminal status, rather than leaving `validation_failed` terminal as
the claim states. -/
theorem validation_status_recording (ev : ValidationEvent) (download : Option Bytes)
    (iid : PyStr) (hid : ev.image_id = some iid)
    (hb : ev.bucket_name.isSome = true) (hu : ev.user_id.isSome = true)
    (he : ev.user_email.isSome = true) :
    (∀ d fmt sz, download = some d → validate_image d = .valid fmt sz →
      validation_main ev download =
        (.ok ⟨200, iid, str "validated"⟩, [(iid, str "validated")])) ∧
    (∀ d err, download = some d → validate_image d = .invalid err →
      validation_main ev download =
        (.error (str "Image validation failed"),
         [(iid, str "validation_failed"), (iid, str "validation_error")])) ∧
    (download = none →
      validation_main ev download =
        (.error (str "Failed to download image"), [(iid, str "validation_error")])) := by
  obtain ⟨b, hb⟩ := Option.isSome_iff_exists.mp hb
  obtain ⟨u, hu⟩ := Option.isSome_iff_exists.mp hu
  obtain ⟨e, he⟩ := Option.isSome_iff_exists.mp he
  refine ⟨?_, ?_, ?_⟩
  · intro d fmt sz hd hv
    subst hd
    simp [validation_main, hid, hb, hu, he, hv]
  · intro d err hd hv
    subst hd
    simp [validation_main, hid, hb, hu, he, hv]
  · intro hd
    subst hd
    simp [validation_main, hid, hb, hu, he]

/-- A concrete 8-byte payload that no format test matches: a policy
rejection (disallowed format), not an exception. -/
def cexBytes : Bytes := [0, 0, 0, 0, 0, 0, 0, 0]

/-- A concrete Validation stage event with every field present. -/
def cexValidationEvent : ValidationEvent :=
  ⟨some (str "uploads/u1/a.jpg"), some (str "bkt"), some (str "u1"), some (str "e")⟩

/-- Claim C2 counterexample: for a run rejected by policy (disallowed
format), the last status recorded before the stage raises is
`validation_error`, not `validation_failed` as the claim states — the
`validation_failed` write is immediately overwritten because the rejection
is re-raised through the stage's own exception handler. -/
theorem validation_status_counterexample :
    (∃ err, validate_image cexBytes = .invalid err) ∧
    (validation_main cexValidationEvent (some cexBytes)).2 =
      [(str "uploads/u1/a.jpg", str "validation_failed"),
       (str "uploads/u1/a.jpg", str "validation_error")] ∧
    ((validation_main cexValidationEvent (some cexBytes)).2.getLast?.map Prod.snd ≠
      some (str "validation_failed")) := by
  refine ⟨⟨"invalid file format", by decide⟩, by decide, by decide⟩

/-- Witness for `validation_status_recording` at a concrete rejected run. -/
theorem validation_status_recording_witness :
    validation_main cexValidationEvent (some cexBytes) =
      (.error (str "Image validation failed"),
       [(str "uploads/u1/a.jpg", str "validation_failed"),
        (str "uploads/u1/a.jpg", str "validation_error")]) :=
  (validation_status_recording cexValidationEvent (some cexBytes)
      (str "uploads/u1/a.jpg") rfl rfl rfl rfl).2.1 cexBytes "invalid file format" rfl
      (by decide)

/-- The body of a job message once JSON-parsed, src/lambda/orchestrator/main.py
lines 61-67.  The five fields read with subscription raise `KeyError` when
missing; `user_email` and `original_filename` are read with `.get` defaults. -/
structure OrchMessageBody where
  image_id : Option PyStr
  bucket_name : Option PyStr
  user_id : Option PyStr
  user_email : Option PyStr
  upload_timestamp : Option PyStr
  original_filename : Option PyStr
  file_size : Option Nat

/-- One delivered SQS record: `body = none` models a body that is not
well-formed JSON (so `json.loads` raises `JSONDecodeError`). -/
structure SQSRecord where
  body : Option OrchMessageBody
  messageId : PyStr

/-- Externally visible side effects of processing one job message:
starting the Step Functions run and the best-effort initial status write
`update_dynamodb_status(image_id, ..., 'processing', ...)`. -/
inductive OrchEffect where
  | startedWorkflow (image_id : PyStr)
  | wroteStatus (image_id : PyStr) (run_status : PyStr)
deriving DecidableEq

/-- `process_sqs_message(record)` from src/lambda/orchestrator/main.py lines
47-120: parse the body, read the required fields (raising on a malformed
body or a missing field), start the workflow, then best-effort write the
initial `processing` status.  `Except.error` models the re-raised
exception. -/
def process_sqs_message (r : SQSRecord) : Except PyStr (List OrchEffect) :=
  match r.body with
  | none => .error (str "JSONDecodeError")
  | some m =>
    match m.image_id, m.bucket_name, m.user_id, m.upload_timestamp, m.file_size with
    | some iid, some _, some _, some _, some _ =>
      .ok [.startedWorkflow iid, .wroteStatus iid (str "processing")]
    | _, _, _, _, _ => .error (str "KeyError")

/-- Return value of the Orchestrator handler, which always returns a
response dictionary: statusCode 200 on success, 500 after any caught
exception. -/
structure OrchResult where
  statusCode : Nat
  effects : List OrchEffect
deriving DecidableEq

/-- The sequential message loop of the Orchestrator handler (the `for`
over `event['Records']`), threading the effects performed so far.  The
first raising message aborts the loop; the surrounding `try/except` of
`main` catches the exception and returns a plain 500 response, so the
result is always `Except.ok`. -/
def orchestrator_loop : List SQSRecord → List OrchEffect → Except PyStr OrchResult
  | [], acc => .ok ⟨200, acc⟩
  | r :: rs, acc =>
    match process_sqs_message r with
    | .ok effs => orchestrator_loop rs (acc ++ effs)
    | .error _ => .ok ⟨500, acc⟩

/-- The Orchestrator Lambda handler `main` from
src/lambda/orchestrator/main.py lines 15-45.  An `Except.error` result
would model an exception propagating out of the invocation; the blanket
`except` block means that never happens. -/
def orchestrator_main (records : List SQSRecord) : Except PyStr OrchResult :=
  orchestrator_loop records []

/-- The effects of the messages of a batch that process successfully. -/
def batch_effects (rs : List SQSRecord) : List OrchEffect :=
  rs.flatMap fun x =>
    match process_sqs_message x with
    | .ok effs => effs
    | .error _ => []

theorem orchestrator_loop_halts (pre post : List SQSRecord) (r : SQSRecord)
    (acc : List OrchEffect)
    (hpre : ∀ x ∈ pre, (process_sqs_message x).isOk = true)
    (hr : (process_sqs_message r).isOk = false) :
    orchestrator_loop (pre ++ r :: post) acc = .ok ⟨500, acc ++ batch_effects pre⟩ := by
  induction pre generalizing acc with
  | nil =>
    cases hp : process_sqs_message r with
    | ok effs => rw [hp] at hr; exact Bool.noConfusion hr
    | error e => simp [orchestrator_loop, hp, batch_effects]
  | cons x xs ih =>
    have hx : (process_sqs_message x).isOk = true := hpre x (by simp)
    cases hp : process_sqs_message x with
    | error e => rw [hp] at hx; exact Bool.noConfusion hx
    | ok effs =>
      have hxs : ∀ y ∈ xs, (process_sqs_message y).isOk = true :=
        fun y hy => hpre y (by simp [hy])
      simp only [List.cons_append, orchestrator_loop, hp]
      rw [show xs.append (r :: post) = xs ++ r :: post from rfl, ih (acc ++ effs) hxs]
      simp [batch_effects, hp, List.append_assoc]

/-- Claim C1 (amended): a malformed message (body not well-formed JSON or a
required field missing) stops the batch at that message — no later message
in the batch is processed — but the error does not propagate out of the
invocation: the handler catches it and returns a normal response with
statusCode 500, so the queue sees a successful invocation rather than a
failure, and only the effects of the earlier well-formed messages have
happened. -/
theorem orchestrator_batch_aborts (pre post : List SQSRecord) (r : SQSRecord)
    (hpre : ∀ x ∈ pre, (process_sqs_message x).isOk = true)
    (hr : (process_sqs_message r).isOk = false) :
    orchestrator_main (pre ++ r :: post) = .ok ⟨500, batch_effects pre⟩ := by
  simpa using orchestrator_loop_halts pre post r [] hpre hr

/-- A concrete malformed delivery (body not well-formed JSON). -/
def cexBadRecord : SQSRecord := ⟨none, str "m1"⟩

/-- A concrete well-formed delivery. -/
def cexGoodRecord : SQSRecord :=
  ⟨some ⟨some (str "uploads/u1/a.jpg"), some (str "bkt"), some (str "u1"), none,
    some (str "t0"), none, some 2000⟩, str "m2"⟩

/-- Claim C1 counterexample: for a batch whose first message has a
malformed body, the invocation does not fail — `orchestrator_main` returns
normally (`Except.ok`, modelling that no exception leaves the handler) with
a 500-status response body, so the queue redelivery policy that the claim
appeals to is never triggered by an invocation error.  The later message in
the batch is indeed not processed (no effects). -/
theorem orchestrator_counterexample :
    orchestrator_main [cexBadRecord, cexGoodRecord] = .ok ⟨500, []⟩ ∧
    (orchestrator_main [cexBadRecord, cexGoodRecord]).isOk = true := by
  constructor <;> rfl

/-- Witness for `orchestrator_batch_aborts`: one good message before the
malformed one; only the good message's effects happen. -/
theorem orchestrator_batch_aborts_witness :
    orchestrator_main [cexGoodRecord, cexBadRecord, cexGoodRecord] =
      .ok ⟨500, [.startedWorkflow (str "uploads/u1/a.jpg"),
                 .wroteStatus (str "uploads/u1/a.jpg") (str "processing")]⟩ :=
  orchestrator_batch_aborts [cexGoodRecord] [cexGoodRecord] cexBadRecord
    (by intro x hx; simp at hx; subst hx; rfl) rfl

/-- Extraction of the DynamoDB record key used by the Resize and Watermark
stages (src/lambda/resize/main.py lines 44-53 and
src/lambda/watermark/main.py lines 45-54): when the incoming `image_id`
holds a full `uploads/{user_id}/{filename}` key with at least three
slash-separated parts, the second part (the user segment) is used;
otherwise the context's `user_id` is the fallback. -/
def extract_actual_image_id (image_key user_id : PyStr) : PyStr :=
  if image_key ≠ [] ∧ '/' ∈ image_key then
    match splitOnChar '/' image_key with
    | _ :: p1 :: _ :: _ => p1
    | _ => user_id
  else user_id

theorem extract_actual_image_id_upload (u rest user_id : PyStr) (hu : '/' ∉ u) :
    extract_actual_image_id (str "uploads/" ++ u ++ str "/" ++ rest) user_id = u := by
  have hkey : str "uploads/" ++ u ++ str "/" ++ rest
      = str "uploads" ++ '/' :: (u ++ '/' :: rest) := by
    simp [str, List.append_assoc]
  rw [hkey]
  have hsplit : splitOnChar '/' (str "uploads" ++ '/' :: (u ++ '/' :: rest))
      = str "uploads" :: u :: splitOnChar '/' rest := by
    rw [splitOnChar_append_cons '/' (str "uploads") _ (by decide),
        splitOnChar_append_cons '/' u rest hu]
  unfold extract_actual_image_id
  rw [if_pos ⟨by simp [str], by simp⟩, hsplit]
  cases hrest : splitOnChar '/' rest with
  | nil => exact absurd hrest (splitOnChar_ne_nil '/' rest)
  | cons y ys => rfl

/-- The DynamoDB record key of the Orchestrator's initial status write
(src/lambda/orchestrator/main.py lines 104 and 195-199): the `image_id`
carried by the job message, i.e. the full upload storage key. -/
def orchestrator_record_key (msg_image_id : PyStr) : PyStr := msg_image_id

/-- The DynamoDB record key of the Validation stage's status writes
(src/lambda/validation/main.py lines 262-266): the `image_id` of the run
context, i.e. the full upload storage key. -/
def validation_record_key (ctx_image_id : PyStr) : PyStr := ctx_image_id

/-- The DynamoDB record key of the Resize stage's status writes
(src/lambda/resize/main.py lines 165-167 and 203-205). -/
def resize_record_key (image_key user_id : PyStr) : PyStr :=
  extract_actual_image_id image_key user_id

/-- The DynamoDB record key of the Watermark stage's status writes
(src/lambda/watermark/main.py lines 185-187 and 232-234). -/
def watermark_record_key (image_key user_id : PyStr) : PyStr :=
  extract_actual_image_id image_key user_id

/-- Claim C3 counterexample: for the run context of an upload at key
`uploads/u1/abc.jpg`, the Resize stage's status write is keyed by `u1`
while the Validation stage's status write is keyed by the full key — the
status-store writes of one run do not all address the same record key. -/
theorem record_key_counterexample :
    resize_record_key (str "uploads/u1/abc.jpg") (str "u1") ≠
      validation_record_key (str "uploads/u1/abc.jpg") := by
  decide

/-- Claim C3 (amended): within one pipeline run for an upload key
`uploads/<u>/<f>`, the Orchestrator and Validation status writes share the
full upload key as their record key, and the Resize and Watermark status
writes share the user segment `u` as theirs — but the two groups address
different record keys (the full key is strictly longer than `u`), so the
run advances two independent ImageRecords rather than exactly one. -/
theorem record_key_groups (u f user_id : PyStr) (hu : '/' ∉ u) :
    orchestrator_record_key (str "uploads/" ++ u ++ str "/" ++ f)
      = validation_record_key (str "uploads/" ++ u ++ str "/" ++ f) ∧
    resize_record_key (str "uploads/" ++ u ++ str "/" ++ f) user_id
      = watermark_record_key (str "uploads/" ++ u ++ str "/" ++ f) user_id ∧
    resize_record_key (str "uploads/" ++ u ++ str "/" ++ f) user_id = u ∧
    resize_record_key (str "uploads/" ++ u ++ str "/" ++ f) user_id ≠
      validation_record_key (str "uploads/" ++ u ++ str "/" ++ f) := by
  refine ⟨rfl, rfl, extract_actual_image_id_upload u f user_id hu, ?_⟩
  rw [resize_record_key, extract_actual_image_id_upload u f user_id hu]
  intro h
  have hlen := congrArg List.length h
  simp [validation_record_key, str, List.length_append] at hlen
  omega

/-- Witness for `record_key_groups` at the concrete upload key
`uploads/u1/abc.jpg`. -/
theorem record_key_groups_witness :
    resize_record_key (str "uploads/" ++ str "u1" ++ str "/" ++ str "abc.jpg")
        (str "u1") = str "u1" :=
  (record_key_groups (str "u1") (str "abc.jpg") (str "u1") (by decide)).2.2.1

theorem takeWhile_append_stop (p : Char → Bool) (l r : List Char) (x : Char)
    (hl : ∀ a ∈ l, p a = true) (hx : p x = false) :
    (l ++ x :: r).takeWhile p = l := by
  induction l with
  | nil => simp [List.takeWhile, hx]
  | cons y ys ih =>
    have hy : p y = true := hl y (by simp)
    have hys : ∀ a ∈ ys, p a = true := fun a ha => hl a (by simp [ha])
    simp [List.takeWhile, hy, ih hys]

theorem dropWhile_append_stop (p : Char → Bool) (l r : List Char) (x : Char)
    (hl : ∀ a ∈ l, p a = true) (hx : p x = false) :
    (l ++ x :: r).dropWhile p = x :: r := by
  induction l with
  | nil => simp [List.dropWhile, hx]
  | cons y ys ih =>
    have hy : p y = true := hl y (by simp)
    have hys : ∀ a ∈ ys, p a = true := fun a ha => hl a (by simp [ha])
    simp [List.dropWhile, hy, ih hys]

theorem takeWhile_all (p : Char → Bool) (l : List Char) (hl : ∀ a ∈ l, p a = true) :
    l.takeWhile p = l := by
  induction l with
  | nil => rfl
  | cons y ys ih =>
    have hy : p y = true := hl y (by simp)
    have hys : ∀ a ∈ ys, p a = true := fun a ha => hl a (by simp [ha])
    simp [List.takeWhile, hy, ih hys]

/-- Locate the last dot of a path: `none` when there is no dot, otherwise
the part before it and the part after it (Python `p.rfind('.')`). -/
def splitAtLastDot (p : List Char) : Option (List Char × List Char) :=
  match p.reverse.dropWhile (fun c => c != '.') with
  | [] => none
  | _ :: revStem =>
    some (revStem.reverse, (p.reverse.takeWhile (fun c => c != '.')).reverse)

/-- CPython `posixpath.splitext(p)`: split off the extension at the last
dot, provided that dot comes after the last slash and that the basename has
at least one non-dot character before it (leading dots of the basename do
not start an extension). -/
def splitextList (p : List Char) : List Char × List Char :=
  match splitAtLastDot p with
  | none => (p, [])
  | some (stem, extPart) =>
    if '/' ∈ extPart then (p, [])
    else if (stem.reverse.takeWhile (fun c => c != '/')).any (fun c => c != '.') then
      (stem, '.' :: extPart)
    else (p, [])

theorem splitextList_base_ext (base extension : PyStr) (hb : base ≠ [])
    (hbd : '.' ∉ base) (hbs : '/' ∉ base) (hed : '.' ∉ extension)
    (hes : '/' ∉ extension) :
    splitextList (base ++ '.' :: extension) = (base, '.' :: extension) := by
  have hrev : (base ++ '.' :: extension).reverse
      = extension.reverse ++ '.' :: base.reverse := by
    simp [List.reverse_append]
  have hallext : ∀ a ∈ extension.reverse, (a != '.') = true := by
    intro a ha
    simp only [List.mem_reverse] at ha
    simp [bne_iff_ne]
    exact fun h => hed (h ▸ ha)
  have hdotfalse : (('.' : Char) != '.') = false := by decide
  have hdrop : (base ++ '.' :: extension).reverse.dropWhile (fun c => c != '.')
      = '.' :: base.reverse := by
    rw [hrev]
    exact dropWhile_append_stop _ _ _ _ hallext hdotfalse
  have htake : (base ++ '.' :: extension).reverse.takeWhile (fun c => c != '.')
      = extension.reverse := by
    rw [hrev]
    exact takeWhile_append_stop _ _ _ _ hallext hdotfalse
  have hsplit : splitAtLastDot (base ++ '.' :: extension)
      = some (base, extension) := by
    unfold splitAtLastDot
    rw [hdrop, htake]
    simp
  unfold splitextList
  rw [hsplit]
  simp only
  rw [if_neg hes]
  have hslashall : ∀ a ∈ base.reverse, (a != '/') = true := by
    intro a ha
    simp only [List.mem_reverse] at ha
    simp only [bne_iff_ne, ne_eq, decide_eq_true_eq]
    exact fun h => hbs (h ▸ ha)
  rw [takeWhile_all _ _ hslashall]
  have hany : base.reverse.any (fun c => c != '.') = true := by
    obtain ⟨a, ha⟩ := List.exists_mem_of_ne_nil base hb
    refine List.any_eq_true.mpr ⟨a, by simp [ha], ?_⟩
    simp only [bne_iff_ne, ne_eq, decide_eq_true_eq]
    exact fun h => hbd (h ▸ ha)
  rw [if_pos hany]

/-- The output-format selection shared by the Resize and Watermark stages
(src/lambda/resize/main.py lines 114-126, src/lambda/watermark/main.py
lines 141-153): JPEG family and any unrecognized format encode to `jpg`,
PNG stays `png`. -/
def output_file_extension (original_format : PyStr) : PyStr :=
  if original_format.map Char.toUpper = str "JPEG"
      ∨ original_format.map Char.toUpper = str "JPG" then str "jpg"
  else if original_format.map Char.toUpper = str "PNG" then str "png"
  else str "jpg"

/-- The Watermark stage's output storage key
(src/lambda/watermark/main.py lines 159-160):
`watermarked/{actual_image_id}/{base_name}_watermarked.{file_extension}`,
with `base_name` the filename minus its extension unless the filename is
the placeholder `image`. -/
def watermark_output_key (image_key user_id original_filename file_extension : PyStr) :
    PyStr :=
  str "watermarked/" ++ extract_actual_image_id image_key user_id ++ str "/" ++
    (if original_filename ≠ str "image"
      then (splitextList original_filename).1
      else extract_actual_image_id image_key user_id) ++
    str "_watermarked." ++ file_extension

/-- The Retrieval Service's reconstructed storage key
(src/lambda/image_retrieval/main.py line 131):
`watermarked/{user_id}/{image_id}_watermarked.{file_extension}`, built from
the authenticated user id, the requested image id and the requested
extension alone — no Status Store read is involved. -/
def retrieval_image_key (user_id image_id file_extension : PyStr) : PyStr :=
  str "watermarked/" ++ user_id ++ str "/" ++ image_id ++ str "_watermarked." ++
    file_extension

/-- Claim C7: round-trip of the key naming convention.  For an original
uploaded at `uploads/<u>/<base>.<ext>` and processed by the Watermark stage
with a JPEG-family output format, the key the Retrieval Service
reconstructs for `(user_id = u, image_id = base, extension = jpg)` is
exactly the key the Watermark stage wrote:
`watermarked/<u>/<base>_watermarked.jpg`. -/
theorem watermark_retrieval_roundtrip (u base extension fmt : PyStr)
    (hu : '/' ∉ u) (hb : base ≠ []) (hbd : '.' ∉ base) (hbs : '/' ∉ base)
    (hed : '.' ∉ extension) (hes : '/' ∉ extension)
    (hfmt : fmt.map Char.toUpper = str "JPEG" ∨ fmt.map Char.toUpper = str "JPG") :
    watermark_output_key (str "uploads/" ++ u ++ str "/" ++ (base ++ str "." ++ extension))
        u (base ++ str "." ++ extension) (output_file_extension fmt)
      = retrieval_image_key u base (str "jpg") := by
  have hkey := extract_actual_image_id_upload u (base ++ str "." ++ extension) u hu
  have hne : (base ++ str "." ++ extension) ≠ str "image" := by
    intro h
    have hdot : '.' ∈ str "image" := by
      rw [← h]
      simp [str]
    exact absurd hdot (by decide)
  have hassoc : base ++ str "." ++ extension = base ++ '.' :: extension := by
    simp [str, List.append_assoc]
  have hsplit : splitextList (base ++ str "." ++ extension) = (base, '.' :: extension) := by
    rw [hassoc]
    exact splitextList_base_ext base extension hb hbd hbs hed hes
  have hext : output_file_extension fmt = str "jpg" := by
    unfold output_file_extension
    rw [if_pos hfmt]
  unfold watermark_output_key
  rw [hkey, if_pos hne, hsplit, hext]
  rfl

/-- Witness for `watermark_retrieval_roundtrip` at the concrete upload
`uploads/u1/abc.jpg`. -/
theorem watermark_retrieval_roundtrip_witness :
    watermark_output_key
        (str "uploads/" ++ str "u1" ++ str "/" ++ (str "abc" ++ str "." ++ str "jpg"))
        (str "u1") (str "abc" ++ str "." ++ str "jpg") (output_file_extension (str "JPEG"))
      = retrieval_image_key (str "u1") (str "abc") (str "jpg") :=
  watermark_retrieval_roundtrip (str "u1") (str "abc") (str "jpg") (str "JPEG")
    (by decide) (by decide) (by decide) (by decide) (by decide) (by decide) (by decide)

/-- `RESIZE_DIMENSIONS` from src/lambda/resize/main.py lines 20-24, in
source order: medium, large, thumbnail. -/
def RESIZE_DIMENSIONS : List (Nat × Nat) := [(800, 600), (1200, 900), (400, 300)]

/-- The aspect-ratio preserving fit-within computation of the Resize stage
(src/lambda/resize/main.py lines 86-97): if the image is relatively wider
than the target box, the width is pinned to the box width and the height
derived, otherwise the height is pinned and the width derived.  The Python
float arithmetic on the ratios is modelled exactly over the rationals, and
`int(...)` applied to these non-negative values is the floor. -/
def fit_dimensions (w h W H : Nat) : Nat × Nat :=
  if (w : ℚ) / (h : ℚ) > (W : ℚ) / (H : ℚ) then
    (W, (⌊(W : ℚ) / ((w : ℚ) / (h : ℚ))⌋).toNat)
  else
    ((⌊(H : ℚ) * ((w : ℚ) / (h : ℚ))⌋).toNat, H)

/-- The per-box loop of the Resize stage handler
(src/lambda/resize/main.py lines 83-161): one output per configured box,
in the fixed `RESIZE_DIMENSIONS` order. -/
def resize_outputs (w h : Nat) : List (Nat × Nat) :=
  RESIZE_DIMENSIONS.map fun t => fit_dimensions w h t.1 t.2

/-- Claim C5: for positive input dimensions the Resize stage produces
exactly 3 variants, in the fixed box order 800x600, 1200x900, 400x300, and
for each positive target box the computed dimensions fit within the box
and follow the stated pinning rule: width pinned to the box width when the
image's aspect ratio strictly exceeds the box's, otherwise height pinned
to the box height. -/
theorem resize_variants_spec (w h W H : Nat) (hw : 0 < w) (hh : 0 < h)
    (hW : 0 < W) (hH : 0 < H) :
    resize_outputs w h =
      [fit_dimensions w h 800 600, fit_dimensions w h 1200 900,
       fit_dimensions w h 400 300] ∧
    (resize_outputs w h).length = 3 ∧
    (fit_dimensions w h W H).1 ≤ W ∧
    (fit_dimensions w h W H).2 ≤ H ∧
    ((w : ℚ) / (h : ℚ) > (W : ℚ) / (H : ℚ) → (fit_dimensions w h W H).1 = W) ∧
    (¬ ((w : ℚ) / (h : ℚ) > (W : ℚ) / (H : ℚ)) → (fit_dimensions w h W H).2 = H) := by
  have hw' : (0 : ℚ) < (w : ℚ) := by exact_mod_cast hw
  have hh' : (0 : ℚ) < (h : ℚ) := by exact_mod_cast hh
  have hH' : (0 : ℚ) < (H : ℚ) := by exact_mod_cast hH
  have hr : (0 : ℚ) < (w : ℚ) / (h : ℚ) := div_pos hw' hh'
  refine ⟨rfl, rfl, ?_, ?_, fun hgt => by simp [fit_dimensions, hgt],
    fun hng => by simp [fit_dimensions, hng]⟩
  · by_cases hgt : (w : ℚ) / (h : ℚ) > (W : ℚ) / (H : ℚ)
    · simp [fit_dimensions, hgt]
    · simp only [fit_dimensions, if_neg hgt]
      have hle : (w : ℚ) / (h : ℚ) ≤ (W : ℚ) / (H : ℚ) := le_of_not_lt hgt
      have hmul : ((w : ℚ) / (h : ℚ)) * (H : ℚ) ≤ (W : ℚ) := (le_div_iff hH').mp hle
      have hfl : ⌊(H : ℚ) * ((w : ℚ) / (h : ℚ))⌋ ≤ (W : ℤ) := by
        rw [mul_comm]
        calc ⌊((w : ℚ) / (h : ℚ)) * (H : ℚ)⌋ ≤ ⌊(W : ℚ)⌋ := Int.floor_le_floor hmul
          _ = (W : ℤ) := Int.floor_natCast W
      exact Int.toNat_le.mpr hfl
  · by_cases hgt : (w : ℚ) / (h : ℚ) > (W : ℚ) / (H : ℚ)
    · simp only [fit_dimensions, if_pos hgt]
      have hWh : (W : ℚ) * (h : ℚ) < (w : ℚ) * (H : ℚ) := (div_lt_div_iff hH' hh').mp hgt
      have hq : (W : ℚ) / ((w : ℚ) / (h : ℚ)) < (H : ℚ) := by
        rw [div_lt_iff hr]
        have hrw : (H : ℚ) * ((w : ℚ) / (h : ℚ)) = (w : ℚ) * (H : ℚ) / (h : ℚ) := by
          ring
        rw [hrw, lt_div_iff hh']
        exact hWh
      have hfl : ⌊(W : ℚ) / ((w : ℚ) / (h : ℚ))⌋ < (H : ℤ) :=
        Int.floor_lt.mpr (by exact_mod_cast hq)
      exact Int.toNat_le.mpr (le_of_lt hfl)
    · simp [fit_dimensions, hgt]

/-- Witness for `resize_variants_spec` at a concrete 100x50 image and the
800x600 box. -/
theorem resize_variants_spec_witness :
    (fit_dimensions 100 50 800 600).1 ≤ 800 ∧ (fit_dimensions 100 50 800 600).2 ≤ 600 :=
  ⟨(resize_variants_spec 100 50 800 600 (by decide) (by decide) (by decide)
      (by decide)).2.2.1,
   (resize_variants_spec 100 50 800 600 (by decide) (by decide) (by decide)
      (by decide)).2.2.2.1⟩

/-- The watermark draw-origin computation from
src/lambda/watermark/main.py lines 111-121: the anchor string selects the
corner formula with a fixed 10-pixel margin, `center` uses Python floor
division `//`, and any unrecognized anchor falls through to the
bottom-right default. -/
def watermark_text_position (pos : PyStr) (W H tw th : Int) : Int × Int :=
  if pos = str "top-left" then (10, 10)
  else if pos = str "top-right" then (W - tw - 10, 10)
  else if pos = str "bottom-left" then (10, H - th - 10)
  else if pos = str "center" then (Int.fdiv (W - tw) 2, Int.fdiv (H - th) 2)
  else (W - tw - 10, H - th - 10)

/-- Claim C6: each of the five configured anchors yields exactly the stated
draw origin with the fixed 10-pixel margin, `center` uses integer (floor)
division, and bottom-right is the default used for any unrecognized anchor
value. -/
theorem watermark_anchor_spec (pos : PyStr) (W H tw th : Int)
    (h1 : pos ≠ str "top-left") (h2 : pos ≠ str "top-right")
    (h3 : pos ≠ str "bottom-left") (h4 : pos ≠ str "center") :
    watermark_text_position (str "top-left") W H tw th = (10, 10) ∧
    watermark_text_position (str "top-right") W H tw th = (W - tw - 10, 10) ∧
    watermark_text_position (str "bottom-left") W H tw th = (10, H - th - 10) ∧
    watermark_text_position (str "bottom-right") W H tw th
      = (W - tw - 10, H - th - 10) ∧
    watermark_text_position (str "center") W H tw th
      = (Int.fdiv (W - tw) 2, Int.fdiv (H - th) 2) ∧
    watermark_text_position pos W H tw th = (W - tw - 10, H - th - 10) := by
  refine ⟨?_, ?_, ?_, ?_, ?_, ?_⟩
  · rw [watermark_text_position, if_pos rfl]
  · rw [watermark_text_position, if_neg (by decide), if_pos rfl]
  · rw [watermark_text_position, if_neg (by decide), if_neg (by decide), if_pos rfl]
  · rw [watermark_text_position, if_neg (by decide), if_neg (by decide),
      if_neg (by decide), if_neg (by decide)]
  · rw [watermark_text_position, if_neg (by decide), if_neg (by decide),
      if_neg (by decide), if_pos rfl]
  · rw [watermark_text_position, if_neg h1, if_neg h2, if_neg h3, if_neg h4]

/-- Witness for `watermark_anchor_spec`: the unrecognized anchor `middle`
on a 1000x800 image with a 200x40 text box lands at the bottom-right
default. -/
theorem watermark_anchor_spec_witness :
    watermark_text_position (str "middle") 1000 800 200 40 = (790, 750) :=
  (watermark_anchor_spec (str "middle") 1000 800 200 40 (by decide) (by decide)
    (by decide) (by decide)).2.2.2.2.2

/-- Static configuration of the Resize and Watermark stages: the
`INPUT_BUCKET` environment value read at module load. -/
structure StageConfig where
  input_bucket : PyStr

/-- The run-context fields the Resize and Watermark stages read with
`.get` (src/lambda/resize/main.py lines 39-42, src/lambda/watermark/main.py
lines 40-43); a missing key yields `none` rather than raising. -/
structure StageInput where
  image_id : Option PyStr
  bucket_name : Option PyStr
  user_id : Option PyStr
  original_filename : Option PyStr

/-- The S3 `get_object` request the Resize stage issues
(src/lambda/resize/main.py lines 62-69): after checking that `image_id`
and `bucket_name` are present and non-empty (raising otherwise), it
downloads from the statically configured `INPUT_BUCKET` with the context's
`image_id` as key — the context's `bucket_name` value is not used. -/
def resize_download_request (cfg : StageConfig) (inp : StageInput) :
    Except PyStr (PyStr × PyStr) :=
  if inp.image_id.getD [] = [] then
    .error (str "image_key is required but not provided")
  else if inp.bucket_name.getD [] = [] then
    .error (str "bucket_name is required but not provided")
  else .ok (cfg.input_bucket, inp.image_id.getD [])

/-- The S3 `get_object` request the Watermark stage issues
(src/lambda/watermark/main.py lines 63-70), identical to the Resize
stage's. -/
def watermark_download_request (cfg : StageConfig) (inp : StageInput) :
    Except PyStr (PyStr × PyStr) :=
  if inp.image_id.getD [] = [] then
    .error (str "image_key is required but not provided")
  else if inp.bucket_name.getD [] = [] then
    .error (str "bucket_name is required but not provided")
  else .ok (cfg.input_bucket, inp.image_id.getD [])

/-- Claim C10: whenever the run context carries a non-empty `image_id`, the
Resize and Watermark stages download `(INPUT_BUCKET, image_id)` — the
configured input bucket, for every value of the context's `bucket_name` —
provided `bucket_name` is present and non-empty, and they raise when it is
absent or empty; `bucket_name` plays no further role in the request. -/
theorem stage_download_input_bucket (cfg : StageConfig) (inp : StageInput)
    (k : PyStr) (hk : inp.image_id = some k) (hk0 : k ≠ []) :
    (inp.bucket_name.getD [] ≠ [] →
      resize_download_request cfg inp = .ok (cfg.input_bucket, k) ∧
      watermark_download_request cfg inp = .ok (cfg.input_bucket, k)) ∧
    (inp.bucket_name.getD [] = [] →
      resize_download_request cfg inp
        = .error (str "bucket_name is required but not provided") ∧
      watermark_download_request cfg inp
        = .error (str "bucket_name is required but not provided")) := by
  constructor
  · intro hb
    constructor <;>
      simp [resize_download_request, watermark_download_request, hk, hk0, hb]
  · intro hb
    constructor <;>
      simp [resize_download_request, watermark_download_request, hk, hk0, hb]

/-- Witness for `stage_download_input_bucket`: a context naming a foreign
bucket still downloads from the configured input bucket. -/
theorem stage_download_input_bucket_witness :
    resize_download_request ⟨str "input-bkt"⟩
        ⟨some (str "uploads/u1/a.jpg"), some (str "other-bkt"), some (str "u1"), none⟩
      = .ok (str "input-bkt", str "uploads/u1/a.jpg") :=
  ((stage_download_input_bucket ⟨str "input-bkt"⟩
      ⟨some (str "uploads/u1/a.jpg"), some (str "other-bkt"), some (str "u1"), none⟩
      (str "uploads/u1/a.jpg") rfl (by decide)).1 (by decide)).1

/-- One S3 event record as read by the Ingestion Adapter
(src/lambda/s3_event_handler/main.py lines 47-58). -/
structure S3EventRecord where
  eventName : PyStr
  bucketName : PyStr
  objectKey : PyStr
  objectSize : Nat
  eventTime : PyStr

/-- The job message body the Ingestion Adapter publishes
(src/lambda/s3_event_handler/main.py lines 81-91). -/
structure JobMessage where
  image_id : PyStr
  bucket_name : PyStr
  user_id : PyStr
  user_email : PyStr
  file_size : Nat
  event_timestamp : PyStr
  event_name : PyStr
  upload_timestamp : PyStr
  original_filename : PyStr
deriving DecidableEq

/-- `extract_user_info_from_key(object_key)` from
src/lambda/s3_event_handler/main.py lines 112-154: exactly three
slash-separated parts, first part the literal `uploads`, non-empty user
segment; every other shape yields `None`. -/
def extract_user_info_from_key (object_key : PyStr) : Option (PyStr × PyStr) :=
  match splitOnChar '/' object_key with
  | [p0, p1, p2] =>
    if p0 ≠ str "uploads" then none
    else if p1 = [] then none
    else some (p1, p2)
  | _ => none

/-- `process_s3_event(record)` from src/lambda/s3_event_handler/main.py
lines 43-110, with `now` the `datetime.utcnow()` value used as
`upload_timestamp`.  Non-creation events and unparsable keys return
without publishing and without raising; a valid key publishes exactly one
queue message. -/
def process_s3_event (now : PyStr) (r : S3EventRecord) :
    Except PyStr (List JobMessage) :=
  if (str "ObjectCreated").isPrefixOf r.eventName then
    match extract_user_info_from_key r.objectKey with
    | none => .ok []
    | some (uid, fname) =>
      .ok [{ image_id := r.objectKey, bucket_name := r.bucketName, user_id := uid,
             user_email := str "unknown", file_size := r.objectSize,
             event_timestamp := r.eventTime, event_name := r.eventName,
             upload_timestamp := now, original_filename := fname }]
  else .ok []

/-- Claim C8: for a creation event on a key of exactly the shape
`uploads/<u>/<f>` with non-empty `u`, the adapter extracts exactly
`(u, f)` and publishes exactly one queue message carrying them; for a key
with a different number of segments or a wrong first segment, and for any
non-creation event, it publishes nothing and returns without raising. -/
theorem s3_event_dispatch_spec (now : PyStr) (r : S3EventRecord) :
    ((str "ObjectCreated").isPrefixOf r.eventName = true →
      ∀ u f, splitOnChar '/' r.objectKey = [str "uploads", u, f] → u ≠ [] →
        extract_user_info_from_key r.objectKey = some (u, f) ∧
        process_s3_event now r =
          .ok [{ image_id := r.objectKey, bucket_name := r.bucketName, user_id := u,
                 user_email := str "unknown", file_size := r.objectSize,
                 event_timestamp := r.eventTime, event_name := r.eventName,
                 upload_timestamp := now, original_filename := f }]) ∧
    ((splitOnChar '/' r.objectKey).length ≠ 3 ∨
        (splitOnChar '/' r.objectKey).head? ≠ some (str "uploads") →
      process_s3_event now r = .ok []) ∧
    ((str "ObjectCreated").isPrefixOf r.eventName = false →
      process_s3_event now r = .ok []) := by
  refine ⟨?_, ?_, ?_⟩
  · intro hc u f hsplit hu
    have hex : extract_user_info_from_key r.objectKey = some (u, f) := by
      unfold extract_user_info_from_key
      rw [hsplit]
      simp [hu]
    refine ⟨hex, ?_⟩
    unfold process_s3_event
    rw [if_pos hc, hex]
  · intro hbad
    have hnone : extract_user_info_from_key r.objectKey = none := by
      unfold extract_user_info_from_key
      cases hs : splitOnChar '/' r.objectKey with
      | nil => rfl
      | cons p0 t0 =>
        cases t0 with
        | nil => rfl
        | cons p1 t1 =>
          cases t1 with
          | nil => rfl
          | cons p2 t2 =>
            cases t2 with
            | cons p3 t3 => rfl
            | nil =>
              rw [hs] at hbad
              rcases hbad with hlen | hhead
              · simp at hlen
              · have hp0 : p0 ≠ str "uploads" := by simpa using hhead
                show (if p0 ≠ str "uploads" then none else if p1 = [] then none
                  else some (p1, p2)) = (none : Option (PyStr × PyStr))
                rw [if_pos hp0]
    unfold process_s3_event
    by_cases hc : (str "ObjectCreated").isPrefixOf r.eventName = true
    · rw [if_pos hc, hnone]
    · rw [if_neg hc]
  · intro hnc
    unfold process_s3_event
    rw [if_neg (by simp [hnc])]

/-- A concrete valid upload-creation event. -/
def cexS3Record : S3EventRecord :=
  ⟨str "ObjectCreated:Put", str "bkt", str "uploads/u1/abc.jpg", 2000, str "t0"⟩

/-- Witness for `s3_event_dispatch_spec` at a concrete valid creation
event: exactly one message is published with the extracted user and
filename. -/
theorem s3_event_dispatch_spec_witness :
    process_s3_event (str "now") cexS3Record =
      .ok [{ image_id := str "uploads/u1/abc.jpg", bucket_name := str "bkt",
             user_id := str "u1", user_email := str "unknown", file_size := 2000,
             event_timestamp := str "t0", event_name := str "ObjectCreated:Put",
             upload_timestamp := str "now", original_filename := str "abc.jpg" }] :=
  ((s3_event_dispatch_spec (str "now") cexS3Record).1 (by decide) (str "u1")
    (str "abc.jpg") (by decide) (by decide)).2

/-- The user information `validate_token` returns on success
(src/lambda/image_retrieval/main.py lines 33-37). -/
structure UserInfo where
  sub : PyStr
  email : PyStr
  email_verified : Bool

/-- Result of the S3 `head_object` existence check: success, or a
`ClientError` carrying its error code. -/
inductive HeadResult where
  | found
  | clientError (code : PyStr)

/-- The request fields `handle_image_retrieval` reads: the Authorization
header (defaulting to the empty string) and the optional query-string
parameters. -/
structure RetrievalEvent where
  authHeader : PyStr
  image_id : Option PyStr
  extension : Option PyStr

/-- The distinct response bodies `handle_image_retrieval` builds, each
carrying the fields of the corresponding source dictionary literal. -/
inductive RetrievalBody where
  | authHeaderRequired
  | invalidToken
  | missingImageId
  | notFound (image_id user_id searched_path : PyStr)
  | headCheckFailed
  | success (image_id user_id key url file_extension : PyStr)
deriving DecidableEq

/-- An API Gateway response: status code and structured body. -/
structure RetrievalResponse where
  statusCode : Nat
  body : RetrievalBody
deriving DecidableEq

/-- Python `auth_header.split(' ')[1]`, the bearer token
(src/lambda/image_retrieval/main.py line 97); the index exists whenever
the header starts with `Bearer `. -/
def bearer_token (header : PyStr) : PyStr :=
  (splitOnChar ' ' header).getD 1 []

/-- `handle_image_retrieval(event)` from
src/lambda/image_retrieval/main.py lines 85-193, as a pure function of the
external collaborators: `validate_token` (Cognito), `head_object` (the S3
existence check) and `presign` (pre-signed URL generation).  The checks
run in source order: Authorization header shape, token validity, presence
of `image_id`, then the existence check on the reconstructed key, mapping
a 404-class `ClientError` to a not-found response that carries the image
id, the user id and the exact searched key, and any other `ClientError`
to a 500 response. -/
def handle_image_retrieval (validate_token : PyStr → Option UserInfo)
    (head_object : PyStr → HeadResult) (presign : PyStr → PyStr)
    (ev : RetrievalEvent) : RetrievalResponse :=
  if ¬ (str "Bearer ").isPrefixOf ev.authHeader then ⟨401, .authHeaderRequired⟩
  else
    match validate_token (bearer_token ev.authHeader) with
    | none => ⟨401, .invalidToken⟩
    | some user_info =>
      if ev.image_id.getD [] = [] then ⟨400, .missingImageId⟩
      else
        let image_id := ev.image_id.getD []
        let file_extension := ev.extension.getD (str "jpg")
        let image_key := retrieval_image_key user_info.sub image_id file_extension
        match head_object image_key with
        | .clientError code =>
          if code = str "404" ∨ code = str "NoSuchKey" then
            ⟨404, .notFound image_id user_info.sub image_key⟩
          else ⟨500, .headCheckFailed⟩
        | .found =>
          ⟨200, .success image_id user_info.sub image_key (presign image_key)
            file_extension⟩

/-- Claim C9: the Retrieval Service maps its failure conditions to
distinct result classes — a malformed or invalid credential to 401, a
missing (or empty) `image_id` parameter to 400, a 404-class existence
check failure to a not-found response carrying the image id, the user id
and the exact searched key, and any other existence-check failure to a
500-class response distinct from not-found. -/
theorem retrieval_error_mapping (validate_token : PyStr → Option UserInfo)
    (head_object : PyStr → HeadResult) (presign : PyStr → PyStr)
    (ev : RetrievalEvent) :
    ((str "Bearer ").isPrefixOf ev.authHeader = false →
      handle_image_retrieval validate_token head_object presign ev
        = ⟨401, .authHeaderRequired⟩) ∧
    ((str "Bearer ").isPrefixOf ev.authHeader = true →
      validate_token (bearer_token ev.authHeader) = none →
      handle_image_retrieval validate_token head_object presign ev
        = ⟨401, .invalidToken⟩) ∧
    (∀ user_info, (str "Bearer ").isPrefixOf ev.authHeader = true →
      validate_token (bearer_token ev.authHeader) = some user_info →
      ev.image_id.getD [] = [] →
      handle_image_retrieval validate_token head_object presign ev
        = ⟨400, .missingImageId⟩) ∧
    (∀ user_info code, (str "Bearer ").isPrefixOf ev.authHeader = true →
      validate_token (bearer_token ev.authHeader) = some user_info →
      ev.image_id.getD [] ≠ [] →
      head_object (retrieval_image_key user_info.sub (ev.image_id.getD [])
          (ev.extension.getD (str "jpg"))) = .clientError code →
      (code = str "404" ∨ code = str "NoSuchKey" →
        handle_image_retrieval validate_token head_object presign ev
          = ⟨404, .notFound (ev.image_id.getD []) user_info.sub
              (retrieval_image_key user_info.sub (ev.image_id.getD [])
                (ev.extension.getD (str "jpg")))⟩) ∧
      (¬ (code = str "404" ∨ code = str "NoSuchKey") →
        handle_image_retrieval validate_token head_object presign ev
          = ⟨500, .headCheckFailed⟩ ∧
        (500 : Nat) ≠ 404)) := by
  refine ⟨?_, ?_, ?_, ?_⟩
  · intro h
    unfold handle_image_retrieval
    rw [if_pos (by simp [h])]
  · intro h hv
    unfold handle_image_retrieval
    rw [if_neg (by simp [h]), hv]
  · intro user_info h hv hi
    unfold handle_image_retrieval
    rw [if_neg (by simp [h]), hv]
    simp [hi]
  · intro user_info code h hv hi hh
    constructor
    · intro hcode
      unfold handle_image_retrieval
      rw [if_neg (by simp [h]), hv]
      simp only [if_neg hi]
      rw [hh]
      exact if_pos hcode
    · intro hcode
      refine ⟨?_, by decide⟩
      unfold handle_image_retrieval
      rw [if_neg (by simp [h]), hv]
      simp only [if_neg hi]
      rw [hh]
      exact if_neg hcode

/-- A concrete token validator accepting any token as user `u1`. -/
def cexValidator : PyStr → Option UserInfo := fun _ => some ⟨str "u1", str "e", true⟩

/-- A concrete existence check that reports a 404 `ClientError`. -/
def cexHeadNotFound : PyStr → HeadResult := fun _ => .clientError (str "404")

/-- A concrete request for image `abc` with a well-formed bearer header. -/
def cexRetrievalEvent : RetrievalEvent :=
  ⟨str "Bearer tok", some (str "abc"), none⟩

/-- Witness for `retrieval_error_mapping`: a missing derived artifact for
image `abc` of user `u1` yields a 404 response carrying the image id, the
user id and the exact searched key. -/
theorem retrieval_error_mapping_witness :
    handle_image_retrieval cexValidator cexHeadNotFound (fun k => k)
        cexRetrievalEvent
      = ⟨404, .notFound (str "abc") (str "u1")
          (retrieval_image_key (str "u1") (str "abc") (str "jpg"))⟩ :=
  (((retrieval_error_mapping cexValidator cexHeadNotFound (fun k => k)
      cexRetrievalEvent).2.2.2 ⟨str "u1", str "e", true⟩ (str "404") (by decide) rfl
      (by decide) rfl).1 (Or.inl rfl))
